import Mathlib

/-!
Verification of the application service of forms-flow-ai
(src/forms-flow-api/src/formsflow_api/services/application.py).

The development shallowly embeds the `ApplicationService` and
`ApplicationSchemaWrapper` classes.  Python dynamic values are modelled by
`PyVal` (None / int / str), Python dicts by association lists, Python
truthiness by `truthy`, and the `functools.lru_cache(maxsize=32)` decorator
on `get_authorised_form_list` by an explicit most-recent-first association
list with LRU eviction.  External collaborators that are not part of the
source file (the `Application` / `FormProcessMapper` models, the
marshmallow schemas, and the BPM client) are passed in as oracle
parameters or, where a claim depends on their concrete behaviour, are
given definitions modelled from the specification and marked as such in
their doc comments.
-/

set_option autoImplicit false

namespace FormsFlow

/-- Model of a dynamically typed Python value as used by the service:
`None`, an integer, or a string. -/
inductive PyVal where
  | none
  | int (n : Int)
  | str (s : String)
deriving DecidableEq, Repr

/-- Python truthiness for `PyVal`: `None`, `0` and `""` are falsy,
everything else is truthy.  This drives every `if x:` coercion guard in
the source. -/
def truthy : PyVal → Bool
  | .none => false
  | .int n => n != 0
  | .str s => s != ""

/-- Model of a Python exception value raised by the embedded code. -/
inductive PyExc where
  | typeError
  | keyError (k : String)
  | valueError
  | businessNotFound
  | otherError (s : String)
deriving DecidableEq, Repr

/-- HTTP status constants used by the service (`http.HTTPStatus`). -/
def HTTPStatus.OK : Nat := 200

/-- HTTP 403, returned when the authorization lookup yields no forms. -/
def HTTPStatus.FORBIDDEN : Nat := 403

/-- HTTP 400, the caller-input failure classification. -/
def HTTPStatus.BAD_REQUEST : Nat := 400

/-- HTTP 502, the integration failure classification. -/
def HTTPStatus.BAD_GATEWAY : Nat := 502

/-- Decidable equality of `Except` results, used to evaluate the
embedded fallible operations on concrete inputs. -/
instance instDecEqExcept {ε α : Type} [DecidableEq ε] [DecidableEq α] :
    DecidableEq (Except ε α) := fun x y =>
  match x, y with
  | .error a, .error b =>
      if h : a = b then .isTrue (by rw [h]) else .isFalse (by simp [h])
  | .error _, .ok _ => .isFalse (by simp)
  | .ok _, .error _ => .isFalse (by simp)
  | .ok a, .ok b =>
      if h : a = b then .isTrue (by rw [h]) else .isFalse (by simp [h])

/-- Model of a Python dict with string keys, as an association list in
insertion order. -/
abbrev PyDict := List (String × PyVal)

/-- Lookup of a key in a dict (`d[k]` / `d.get(k)`), first match. -/
def dictGet? : PyDict → String → Option PyVal
  | [], _ => Option.none
  | (k1, v1) :: t, k => if k1 = k then some v1 else dictGet? t k

/-- Lookup with a default value. -/
def dictGetD (d : PyDict) (k : String) (v0 : PyVal) : PyVal :=
  (dictGet? d k).getD v0

/-- Membership test (`k in d`). -/
def dictContains (d : PyDict) (k : String) : Bool :=
  (dictGet? d k).isSome

/-- Assignment `d[k] = v`: replaces the value of an existing key in
place, otherwise appends the new pair, matching Python dict-ordering
semantics. -/
def dictSet : PyDict → String → PyVal → PyDict
  | [], k, v => [(k, v)]
  | (k1, v1) :: t, k, v =>
      if k1 = k then (k, v) :: t else (k1, v1) :: dictSet t k v

/-- Whitespace test used by the numeric-string parser. -/
def isSpaceChar (c : Char) : Bool :=
  c = ' ' || c = '\t' || c = '\n' || c = '\r'

/-- Strip of leading and trailing whitespace, as `int()` accepts it. -/
def trimChars (l : List Char) : List Char :=
  ((l.dropWhile isSpaceChar).reverse.dropWhile isSpaceChar).reverse

/-- Value of a decimal digit character. -/
def digitVal? (c : Char) : Option Nat :=
  if '0' ≤ c && c ≤ '9' then some (c.toNat - '0'.toNat) else Option.none

/-- Accumulating decimal evaluation of a digit run. -/
def digitsValAux : List Char → Nat → Option Nat
  | [], acc => some acc
  | c :: t, acc =>
      match digitVal? c with
      | some d => digitsValAux t (acc * 10 + d)
      | Option.none => Option.none

/-- Value of a non-empty all-digit run, `Option.none` otherwise. -/
def digitsVal (l : List Char) : Option Nat :=
  if l = [] then Option.none else digitsValAux l 0

/-- Model of Python `int(s)` on a string: optional surrounding
whitespace, an optional sign, then decimal digits; anything else is a
`ValueError`. -/
def parseIntPy (s : String) : Option Int :=
  match trimChars s.toList with
  | '-' :: rest => (digitsVal rest).map (fun k => -(k : Int))
  | '+' :: rest => (digitsVal rest).map (fun k => (k : Int))
  | l => (digitsVal l).map (fun k => (k : Int))

/-- Model of Python `int(x)` on the values the service passes it: an int
is returned unchanged, a numeric string is parsed (`ValueError` on a
non-numeric string), and `None` raises `TypeError`. -/
def pyToInt : PyVal → Except PyExc PyVal
  | .int n => .ok (.int n)
  | .str s =>
      match parseIntPy s with
      | some n => .ok (.int n)
      | Option.none => .error .valueError
  | .none => .error .typeError

/-- Model of Python `str(x)`. -/
def pyToStr : PyVal → PyVal
  | .int n => .str (toString n)
  | .str s => .str s
  | .none => .str "None"

/-- The coercion idiom `if x: x = int(x)` used for every numeric filter
and pagination input: truthy values are coerced, falsy values pass
through unchanged. -/
def pyIntC (x : PyVal) : Except PyExc PyVal :=
  if truthy x then pyToInt x else .ok x

/-- The coercion idiom `if x: x = str(x)` used for every textual filter
input. -/
def pyStrC (x : PyVal) : PyVal :=
  if truthy x then pyToStr x else x

/-- One entry of the response of the external authorization provider
(`BPMService.get_auth_form_details`): a dict carrying a `formName`
field. -/
structure AuthFormDetail where
  formName : String
deriving DecidableEq, Repr

/-- The authorization provider's response: Python `None` or a list of
form details.  Both `None` and `[]` are falsy at the `if
auth_form_details:` guard. -/
abbrev AuthResp := Option (List AuthFormDetail)

/-- Truthiness of an authorization response. -/
def truthyResp : AuthResp → Bool
  | Option.none => false
  | some l => !l.isEmpty

/-- State of the `functools.lru_cache(maxsize=32)` cache on
`get_authorised_form_list`: entries in most-recently-used-first order,
keyed by the exact credential string. -/
abbrev LruSt := List (String × AuthResp)

/-- The maxsize parameter of the cache. -/
def LRU_MAXSIZE : Nat := 32

/-- Cache lookup by credential. -/
def lruLookup : LruSt → String → Option AuthResp
  | [], _ => Option.none
  | (k1, v1) :: t, k => if k1 = k then some v1 else lruLookup t k

/-- Removal of a credential's entry, used when a hit is moved to the
most-recently-used position. -/
def eraseKey : LruSt → String → LruSt
  | [], _ => []
  | (k1, v1) :: t, k =>
      if k1 = k then eraseKey t k else (k1, v1) :: eraseKey t k

/-- Result of one call through the cache: the returned value, the cache
state afterwards, and whether the remote provider was contacted. -/
structure LruStep where
  value : AuthResp
  state : LruSt
  fetched : Bool
deriving DecidableEq, Repr

/-- Embedding of `ApplicationService.get_authorised_form_list` together
with its `lru_cache(maxsize=32)` decorator: a hit returns the cached
value and moves the entry to the most-recently-used position without a
remote call; a miss calls the provider, inserts the result (truthy or
not) at the most-recently-used position, and evicts the
least-recently-used entry when the capacity of 32 is exceeded. -/
def get_authorised_form_list (provider : String → AuthResp)
    (st : LruSt) (token : String) : LruStep :=
  match lruLookup st token with
  | some v => { value := v, state := (token, v) :: eraseKey st token, fetched := false }
  | Option.none =>
      let v := provider token
      let st1 := (token, v) :: st
      { value := v
        state := if LRU_MAXSIZE < st1.length then st1.dropLast else st1
        fetched := true }

/-- A stored application row as seen by the read paths.  Fields are the
ones the filters of the repository's find operations touch; the
application name doubles as the form name used for authorization
scoping (it is copied from the form definition at creation time). -/
structure AppRecord where
  id : Int
  application_name : String
  application_status : String
  created_by : String
  created : Int
  modified : Int
deriving DecidableEq, Repr

/-- Optional equality filter: a truthy filter value constrains the field
to equal it, a falsy one (absent, None, empty string, or 0) imposes no
constraint. -/
def pvMatch (f : PyVal) (v : PyVal) : Bool :=
  if truthy f then f == v else true

/-- Optional lower-bound date filter (falsy means unconstrained). -/
def pvGe (f : PyVal) (v : Int) : Bool :=
  if truthy f then
    match f with
    | .int d => d ≤ v
    | _ => false
  else true

/-- Optional upper-bound date filter (falsy means unconstrained). -/
def pvLe (f : PyVal) (v : Int) : Bool :=
  if truthy f then
    match f with
    | .int d => v ≤ d
    | _ => false
  else true

/-- Modelled from the spec: pagination of a result set.  Page number and
page size are both optional; when both are truthy integers the
corresponding page is returned, otherwise the whole set ("both optional,
meaning return all"). -/
def paginate (page_no limit : PyVal) (l : List AppRecord) : List AppRecord :=
  match page_no, limit with
  | .int p, .int q =>
      if truthy (.int p) && truthy (.int q) then
        (l.drop ((p - 1) * q).toNat).take q.toNat
      else l
  | _, _ => l

/-- The row-level predicate of the authorization-scoped find: the row's
form name must be among the authorized form names, and every
caller-supplied optional filter that is truthy must match. -/
def recordMatches (form_names : List String)
    (application_id application_name application_status created_by : PyVal)
    (created_from created_to modified_from modified_to : PyVal)
    (r : AppRecord) : Bool :=
  form_names.contains r.application_name
    && pvMatch application_id (.int r.id)
    && pvMatch application_name (.str r.application_name)
    && pvMatch application_status (.str r.application_status)
    && pvMatch created_by (.str r.created_by)
    && pvGe created_from r.created && pvLe created_to r.created
    && pvGe modified_from r.modified && pvLe modified_to r.modified

/-- Modelled from the spec: `Application.find_by_form_names`
(formsflow_api.models, not under src/).  Per the spec's repository
interface, a find operation takes filters, pagination and sort and
returns the page of matching entities together with the total count of
the full filtered set; falsy filters impose no constraint.  Sort
parameters are accepted but the ordering itself is left as the stored
order (no claim concerns it). -/
def find_by_form_names (db : List AppRecord) (form_names : List String)
    (application_id application_name application_status created_by : PyVal)
    (page_no limit order_by : PyVal)
    (modified_from modified_to sort_order created_from created_to : PyVal) :
    List AppRecord × Nat :=
  let filtered := db.filter (recordMatches form_names
    application_id application_name application_status created_by
    created_from created_to modified_from modified_to)
  (paginate page_no limit filtered, filtered.length)

/-- Modelled from the spec: `Application.find_id_by_form_names` (not
under src/) — the single application with the given id whose form name
is among the authorized form names, or None. -/
def find_id_by_form_names (db : List AppRecord) (form_names : List String)
    (application_id : Int) : Option AppRecord :=
  (db.filter (fun r => form_names.contains r.application_name
    && r.id == application_id)).head?

/-- A repository query object: the page of rows it yields when iterated
and the total it reports via `count()`. -/
structure QueryObj where
  items : List AppRecord
  total : Nat
deriving DecidableEq, Repr

/-- Modelled from the spec: `Application.find_all_applications` (not
under src/), the authorization-scoped listing used by
`get_all_application_count`; its `count()` reports the size of the full
filtered set ("count reflects the full filtered set size, not just the
returned page"). -/
def find_all_applications (db : List AppRecord) (form_names : List String)
    (page_no limit : PyVal) : QueryObj :=
  let filtered := db.filter (fun r => form_names.contains r.application_name)
  { items := paginate page_no limit filtered, total := filtered.length }

/-- Modelled from the spec: `Application.find_all` (not under src/), the
unscoped administrative listing. -/
def find_all (db : List AppRecord) (page_no limit : PyVal) : List AppRecord :=
  paginate page_no limit db

/-- Modelled from the spec: `Application.find_all_by_user` (not under
src/): rows owned by the given caller identity, intersected with the
optional filters, with the total count of the full filtered set. -/
def find_all_by_user (db : List AppRecord) (user_id : String)
    (application_id application_name application_status created_by : PyVal)
    (page_no limit order_by sort_order : PyVal)
    (modified_from modified_to created_from created_to : PyVal) :
    List AppRecord × Nat :=
  let filtered := db.filter (fun r => (r.created_by == user_id)
    && recordMatches [r.application_name]
        application_id application_name application_status created_by
        created_from created_to modified_from modified_to r)
  (paginate page_no limit filtered, filtered.length)

/-- Modelled from the spec: `ApplicationSchema().dump(..., many=True)`
(formsflow_api.schemas, not under src/), the bulk serializer; modelled
as the identity representation of the rows. -/
def dump_many (l : List AppRecord) : List AppRecord := l

/-- The coerced filter arguments of an authorization-scoped read, after
the `if x: x = int(x)` / `if x: x = str(x)` block. -/
structure CoercedArgs where
  page_no : PyVal
  limit : PyVal
  order_by : PyVal
  application_id : PyVal
  application_name : PyVal
  application_status : PyVal
  created_by : PyVal
  sort_order : PyVal
deriving DecidableEq, Repr

/-- Embedding of the coercion block of
`get_auth_applications_and_count` (source lines 93-109), in source
order: page_no, limit, order_by, application_id, application_name,
application_status, created_by, sort_order. -/
def coerceAuthArgs (page_no limit order_by application_id application_name
    application_status created_by sort_order : PyVal) :
    Except PyExc CoercedArgs := do
  let page_no ← pyIntC page_no
  let limit ← pyIntC limit
  let order_by := pyStrC order_by
  let application_id ← pyIntC application_id
  let application_name := pyStrC application_name
  let application_status := pyStrC application_status
  let created_by := pyStrC created_by
  let sort_order := pyStrC sort_order
  return { page_no, limit, order_by, application_id, application_name,
           application_status, created_by, sort_order }

/-- Embedding of the coercion block of `get_all_applications_by_user`
(source lines 186-201), whose order differs: page_no, limit, order_by,
sort_order, application_id, application_name, application_status,
created_by. -/
def coerceUserArgs (page_no limit order_by sort_order application_id
    application_name application_status created_by : PyVal) :
    Except PyExc CoercedArgs := do
  let page_no ← pyIntC page_no
  let limit ← pyIntC limit
  let order_by := pyStrC order_by
  let sort_order := pyStrC sort_order
  let application_id ← pyIntC application_id
  let application_name := pyStrC application_name
  let application_status := pyStrC application_status
  let created_by := pyStrC created_by
  return { page_no, limit, order_by, application_id, application_name,
           application_status, created_by, sort_order }

/-- Outcome of an authorization-scoped list read: serialized body, count,
the cache state afterwards, and instrumentation recording whether the
remote authorization provider was contacted and whether a repository
find operation was invoked. -/
structure AuthReadOut where
  body : List AppRecord
  count : Nat
  state : LruSt
  fetched : Bool
  repoCalled : Bool
deriving DecidableEq, Repr

/-- The form names extracted from a truthy authorization response
(`auth_form_detail["formName"]` for each entry). -/
def authFormNames (v : AuthResp) : List String :=
  (v.getD []).map (fun d => d.formName)

/-- Core of `get_auth_applications_and_count` after the coercion block:
resolve the authorized forms through the cache; on a truthy response
delegate to the repository find and return the page with the total
count; on a falsy response return the empty result with count 0 without
touching the repository. -/
def authAppsCore (db : List AppRecord) (provider : String → AuthResp)
    (st : LruSt) (token : String) (a : CoercedArgs)
    (created_from created_to modified_from modified_to : PyVal) :
    AuthReadOut :=
  let step := get_authorised_form_list provider st token
  if truthyResp step.value then
    let form_names := authFormNames step.value
    let found := find_by_form_names db form_names
      a.application_id a.application_name a.application_status a.created_by
      a.page_no a.limit a.order_by
      modified_from modified_to a.sort_order created_from created_to
    { body := dump_many found.1, count := found.2, state := step.state,
      fetched := step.fetched, repoCalled := true }
  else
    { body := dump_many [], count := 0, state := step.state,
      fetched := step.fetched, repoCalled := false }

/-- Embedding of `ApplicationService.get_auth_applications_and_count`
(source lines 76-138). -/
def get_auth_applications_and_count (db : List AppRecord)
    (provider : String → AuthResp) (st : LruSt) (token : String)
    (page_no limit order_by : PyVal)
    (created_from created_to modified_from modified_to : PyVal)
    (application_id application_name application_status created_by
     sort_order : PyVal) : Except PyExc AuthReadOut :=
  (coerceAuthArgs page_no limit order_by application_id application_name
      application_status created_by sort_order).map
    (fun a => authAppsCore db provider st token a
      created_from created_to modified_from modified_to)

/-- Body of the single-application authorized lookup: either the dump of
one (possibly absent) row, or the dump of the empty list used as the
forbidden body. -/
inductive DumpBody where
  | one (a : Option AppRecord)
  | many (l : List AppRecord)
deriving DecidableEq, Repr

/-- Outcome of `get_auth_by_application_id`: serialized body, HTTP
status, cache state, and instrumentation. -/
structure AuthByIdOut where
  body : DumpBody
  status : Nat
  state : LruSt
  fetched : Bool
  repoCalled : Bool
deriving DecidableEq, Repr

/-- Embedding of `ApplicationService.get_auth_by_application_id` (source
lines 140-155): with a truthy authorization response the repository
lookup result is dumped with status OK; with a falsy one the empty dump
is returned with status FORBIDDEN and the repository is not touched. -/
def get_auth_by_application_id (db : List AppRecord)
    (provider : String → AuthResp) (st : LruSt)
    (application_id : Int) (token : String) : AuthByIdOut :=
  let step := get_authorised_form_list provider st token
  if truthyResp step.value then
    let form_names := authFormNames step.value
    { body := .one (find_id_by_form_names db form_names application_id),
      status := HTTPStatus.OK, state := step.state,
      fetched := step.fetched, repoCalled := true }
  else
    { body := .many (dump_many []), status := HTTPStatus.FORBIDDEN,
      state := step.state, fetched := step.fetched, repoCalled := false }

/-- Embedding of `ApplicationService.get_all_applications` (source lines
157-167): coerces pagination, then returns only the serialized page — no
count component. -/
def get_all_applications (db : List AppRecord) (page_no limit : PyVal) :
    Except PyExc (List AppRecord) :=
  match pyIntC page_no with
  | .error e => .error e
  | .ok page_no =>
      match pyIntC limit with
      | .error e => .error e
      | .ok limit => .ok (dump_many (find_all db page_no limit))

/-- Embedding of `ApplicationService.get_all_applications_by_user`
(source lines 169-223). -/
def get_all_applications_by_user (db : List AppRecord) (user_id : String)
    (page_no limit order_by sort_order : PyVal)
    (created_from created_to modified_from modified_to : PyVal)
    (created_by application_status application_name application_id : PyVal) :
    Except PyExc (List AppRecord × Nat) :=
  (coerceUserArgs page_no limit order_by sort_order application_id
      application_name application_status created_by).map
    (fun a =>
      let found := find_all_by_user db user_id
        a.application_id a.application_name a.application_status a.created_by
        a.page_no a.limit a.order_by a.sort_order
        modified_from modified_to created_from created_to
      (dump_many found.1, found.2))

/-- Embedding of `ApplicationService.get_all_application_count` (source
lines 243-268): coerces pagination, resolves authorized forms through
the cache, and on a truthy response returns the dumped page with the
query's count; on a falsy one the empty result with count 0. -/
def get_all_application_count (db : List AppRecord)
    (provider : String → AuthResp) (st : LruSt) (token : String)
    (page_no limit : PyVal) : Except PyExc AuthReadOut :=
  match pyIntC page_no with
  | .error e => .error e
  | .ok page_no =>
      match pyIntC limit with
      | .error e => .error e
      | .ok limit =>
          let step := get_authorised_form_list provider st token
          if truthyResp step.value then
            let form_names := authFormNames step.value
            let q := find_all_applications db form_names page_no limit
            .ok { body := dump_many q.items, count := q.total,
                  state := step.state, fetched := step.fetched,
                  repoCalled := true }
          else
            .ok { body := dump_many [], count := 0, state := step.state,
                  fetched := step.fetched, repoCalled := false }

/-- A read-path return value in a common shape: either a (list, count)
pair or a bare list, mirroring whether the Python function returns a
tuple or just the serialized list. -/
inductive ReadRet where
  | pair (l : List AppRecord) (n : Nat)
  | bare (l : List AppRecord)
deriving DecidableEq, Repr

/-- Discriminator: does a completed read return a (list, count) pair? -/
def isPairRet : Except PyExc ReadRet → Bool
  | .ok (.pair _ _) => true
  | _ => false

/-- The return value of `get_all_applications` viewed in the common
read-path shape: a bare serialized list. -/
def get_all_applications_ret (db : List AppRecord) (page_no limit : PyVal) :
    Except PyExc ReadRet :=
  (get_all_applications db page_no limit).map .bare

/-- The return value of `get_auth_applications_and_count` viewed in the
common read-path shape: a (list, count) pair. -/
def get_auth_applications_and_count_ret (db : List AppRecord)
    (provider : String → AuthResp) (st : LruSt) (token : String)
    (page_no limit order_by : PyVal)
    (created_from created_to modified_from modified_to : PyVal)
    (application_id application_name application_status created_by
     sort_order : PyVal) : Except PyExc ReadRet :=
  (get_auth_applications_and_count db provider st token page_no limit
      order_by created_from created_to modified_from modified_to
      application_id application_name application_status created_by
      sort_order).map (fun o => .pair o.body o.count)

/-- The return value of `get_all_application_count` viewed in the common
read-path shape: a (list, count) pair. -/
def get_all_application_count_ret (db : List AppRecord)
    (provider : String → AuthResp) (st : LruSt) (token : String)
    (page_no limit : PyVal) : Except PyExc ReadRet :=
  (get_all_application_count db provider st token page_no limit).map
    (fun o => .pair o.body o.count)

/-- The return value of `get_all_applications_by_user` viewed in the
common read-path shape: a (list, count) pair. -/
def get_all_applications_by_user_ret (db : List AppRecord) (user_id : String)
    (page_no limit order_by sort_order : PyVal)
    (created_from created_to modified_from modified_to : PyVal)
    (created_by application_status application_name application_id : PyVal) :
    Except PyExc ReadRet :=
  (get_all_applications_by_user db user_id page_no limit order_by sort_order
      created_from created_to modified_from modified_to created_by
      application_status application_name application_id).map
    (fun p => .pair p.1 p.2)

/-- A form-to-process mapping row (`FormProcessMapper`): the mapper id,
the display name copied into new applications, and the process key used
to start the workflow. -/
structure Mapper where
  id : Int
  form_name : String
  process_key : String
deriving DecidableEq, Repr

/-- The system "new" status constant.  Modelled from the spec:
`NEW_APPLICATION_STATUS` is imported from `formsflow_api.utils`, which
is not under src/; the spec's example uses the value "new".  Claims only
compare stored statuses against this constant symbolically. -/
def NEW_APPLICATION_STATUS : String := "new"

/-- A persisted application entity as built by the creation path.  The
identifier and creation timestamp are assigned by the store; the
process-instance field is absent until reconciliation. -/
structure AppEntity where
  id : Int
  application_status : PyVal
  form_process_mapper_id : PyVal
  application_name : PyVal
  form_url : PyVal
  created_by : PyVal
  created : String
  process_instance_id : Option PyVal
deriving DecidableEq, Repr

/-- Modelled from the spec: `Application.create_from_dict`
(formsflow_api.models, not under src/).  Per the spec's repository
interface `create(fields) → entity`, the entity's fields are taken from
the field map, the identifier and creation timestamp are assigned by the
store, and the process-instance field starts absent. -/
def create_from_dict (d : PyDict) (newId : Int) (now : String) : AppEntity :=
  { id := newId
    application_status := dictGetD d "application_status" .none
    form_process_mapper_id := dictGetD d "form_process_mapper_id" .none
    application_name := dictGetD d "application_name" .none
    form_url := dictGetD d "form_url" .none
    created_by := dictGetD d "created_by" .none
    created := now
    process_instance_id := Option.none }

/-- The variables payload built for the external engine (source lines
37-45): application id, form URL, application name, submitter and
stringified submission date. -/
structure StartPayload where
  applicationId : Int
  formUrl : PyVal
  formName : PyVal
  submitterName : PyVal
  submissionDate : String
deriving DecidableEq, Repr

/-- The payload of `BPMService.post_process_start` as built from the
freshly created application. -/
def startPayload (app : AppEntity) : StartPayload :=
  { applicationId := app.id
    formUrl := app.form_url
    formName := app.application_name
    submitterName := app.created_by
    submissionDate := app.created }

/-- Outcome of the external workflow-start call: the client either
returns a Python value (None or a response dict) or raises an
exception. -/
inductive BPMOutcome where
  | returns (v : Option PyDict)
  | raises (e : PyExc)
deriving DecidableEq, Repr

/-- Result of `create_application` as seen by the caller: the created
entity, a (message, error)/BAD_GATEWAY response for a `TypeError`, a
(message, error)/BAD_REQUEST response for any other exception raised by
the workflow start, or an exception that propagates uncaught (missing
`form_id` key, mapper not found). -/
inductive CreateResult where
  | ok (app : AppEntity)
  | badGateway (message : String) (err : PyExc)
  | badRequest (message : String) (err : PyExc)
  | uncaught (e : PyExc)
deriving DecidableEq, Repr

/-- The HTTP status attached to a failure result of
`create_application`. -/
def CreateResult.status : CreateResult → Option Nat
  | .badGateway _ _ => some HTTPStatus.BAD_GATEWAY
  | .badRequest _ _ => some HTTPStatus.BAD_REQUEST
  | _ => Option.none

/-- Full outcome of one `create_application` call: the returned result,
the caller's field map after its in-place mutations, the persistence
store afterwards, and whether the external workflow-start call was
made. -/
structure CreateOutcome where
  result : CreateResult
  data : PyDict
  store : List AppEntity
  bpmCalled : Bool
deriving DecidableEq, Repr

/-- Steps of `create_application` after the field map has been mutated
and the mapper resolved (source lines 33-65): persist the entity; if the
caller supplied a `process_instance_id` attach it directly with no
external call; otherwise start the workflow and attach the returned id,
classifying a `TypeError` (including subscripting a None response) as
BAD_GATEWAY and any other exception (including a missing `id` key) as
BAD_REQUEST, in both cases leaving the persisted entity in place with no
process-instance id. -/
def create_core (bpm : StartPayload → BPMOutcome) (newId : Int)
    (now : String) (d : PyDict) (store : List AppEntity) :
    CreateResult × List AppEntity × Bool :=
  let app := create_from_dict d newId now
  if dictContains d "process_instance_id" then
    let app1 := { app with
      process_instance_id := some (dictGetD d "process_instance_id" .none) }
    (.ok app1, store ++ [app1], false)
  else
    match bpm (startPayload app) with
    | .returns (some resp) =>
        match dictGet? resp "id" with
        | some pid =>
            let app1 := { app with process_instance_id := some pid }
            (.ok app1, store ++ [app1], true)
        | Option.none =>
            (.badRequest "Camunda Process Mapper Key not provided"
              (.keyError "id"), store ++ [app], true)
    | .returns Option.none =>
        (.badGateway "Camunda workflow not able to create a task"
          .typeError, store ++ [app], true)
    | .raises e =>
        match e with
        | .typeError =>
            (.badGateway "Camunda workflow not able to create a task"
              .typeError, store ++ [app], true)
        | _ =>
            (.badRequest "Camunda Process Mapper Key not provided" e,
              store ++ [app], true)

/-- Embedding of `ApplicationService.create_application` (source lines
25-65).  The caller's field map is mutated in place: the application
status is forced to the "new" constant, and the mapper id and form name
are written into it; then the entity is persisted and the workflow
started per `create_core`.  The mapper lookup
(`FormProcessMapper.find_form_by_form_id`, not under src/) is the
`findMapper` oracle; per the spec it fails with a NotFound domain error
when no mapping exists, which propagates uncaught. -/
def create_application (findMapper : PyVal → Option Mapper)
    (bpm : StartPayload → BPMOutcome) (newId : Int) (now : String)
    (data : PyDict) (store : List AppEntity) : CreateOutcome :=
  let data1 := dictSet data "application_status" (.str NEW_APPLICATION_STATUS)
  match dictGet? data1 "form_id" with
  | Option.none =>
      { result := .uncaught (.keyError "form_id"), data := data1,
        store := store, bpmCalled := false }
  | some fid =>
      match findMapper fid with
      | Option.none =>
          { result := .uncaught .businessNotFound, data := data1,
            store := store, bpmCalled := false }
      | some mapper =>
          let data3 := dictSet (dictSet data1 "form_process_mapper_id"
            (.int mapper.id)) "application_name" (.str mapper.form_name)
          let core := create_core bpm newId now data3 store
          { result := core.1, data := data3, store := core.2.1,
            bpmCalled := core.2.2 }

/-- The caller's field map after the in-place mutations of
`create_application` (source lines 28-32): application status forced to
the "new" constant, mapper id and form name written in. -/
def mutatedData (data : PyDict) (m : Mapper) : PyDict :=
  dictSet (dictSet (dictSet data "application_status"
    (.str NEW_APPLICATION_STATUS)) "form_process_mapper_id" (.int m.id))
    "application_name" (.str m.form_name)

/-- Index resolution of a Python slice bound: a negative bound counts
from the end, and both directions clamp to the string's length. -/
def pySliceIdx (len : Nat) (i : Int) : Nat :=
  if i < 0 then ((len : Int) + i).toNat else min i.toNat len

/-- Python string slicing `s[a:b]` over the character list of the
string. -/
def pySlice (l : List Char) (a b : Int) : List Char :=
  (l.take (pySliceIdx l.length b)).drop (pySliceIdx l.length a)

/-- Scan for `str.find`: the first index at which the pattern occurs,
or -1. -/
def pyFindAux (pat : List Char) : List Char → Nat → Int
  | [], acc => if pat = [] then (acc : Int) else -1
  | c :: t, acc =>
      if pat.isPrefixOf (c :: t) then (acc : Int)
      else pyFindAux pat t (acc + 1)

/-- Python `s.find(pat)`: index of the first occurrence, or -1. -/
def pyFind (s pat : List Char) : Int := pyFindAux pat s 0

/-- The literal `/form/` marker scanned for in stored form URLs. -/
def formMarker : List Char := "/form/".toList

/-- The literal `/submission/` marker scanned for in stored form
URLs. -/
def submissionMarker : List Char := "/submission/".toList

/-- Result of `ApplicationSchemaWrapper.apply_attributes`: the augmented
record, the structured (message, status) failure returned when the
`formUrl` key is missing, or an uncaught exception (a non-string
`formUrl` would raise `TypeError`, which the source does not catch). -/
inductive ApplyResult where
  | ok (d : PyDict)
  | err (message : String) (status : Nat)
  | raised (e : PyExc)
deriving DecidableEq, Repr

/-- Embedding of `ApplicationSchemaWrapper.apply_attributes` (source
lines 416-434): reads `formUrl`, slices out `formId` between the end of
the first `/form/` and the start of the first `/submission/`, and
`submissionId` after the first `/submission/`; a missing `formUrl` key
(`KeyError`) is caught and reported as a structured bad-request
tuple. -/
def apply_attributes (application : PyDict) : ApplyResult :=
  match dictGet? application "formUrl" with
  | Option.none =>
      .err "The required fields of Input request are not passed"
        HTTPStatus.BAD_REQUEST
  | some fu =>
      match fu with
      | .str u =>
          let l := u.toList
          let formId := pySlice l (pyFind l formMarker + 6)
            (pyFind l submissionMarker)
          let d1 := dictSet application "formId" (.str (String.mk formId))
          let submissionId := pySlice l (pyFind l submissionMarker + 12)
            (l.length : Int)
          let d2 := dictSet d1 "submissionId" (.str (String.mk submissionId))
          .ok d2
      | _ => .raised .typeError

/-- A sample stored row used to evaluate the read paths concretely. -/
def rowA : AppRecord := ⟨1, "FormA", "new", "me", 5, 6⟩

/-- A second sample row of the same form. -/
def rowB : AppRecord := ⟨2, "FormA", "old", "me", 5, 6⟩

/-- The one-row page with full count 2 produced by the paged reads. -/
def outOneP : AuthReadOut := ⟨[rowA], 2, [("t", some [⟨"FormA"⟩])], true, true⟩

/-- The full two-row result with count 2 produced by the unpaged reads. -/
def outTwoP : AuthReadOut :=
  ⟨[rowA, rowB], 2, [("t", some [⟨"FormA"⟩])], true, true⟩

/-- The one-row paged (list, count) pair of the by-user read. -/
def pairOne : List AppRecord × Nat := ([rowA], 2)

/-- The unpaged (list, count) pair of the by-user read. -/
def pairTwo : List AppRecord × Nat := ([rowA, rowB], 2)

/-! Helper lemmas about the dict, cache and Except models. -/

theorem dictGet_set_eq (d : PyDict) (k : String) (v : PyVal) :
    dictGet? (dictSet d k v) k = some v := by
  induction d with
  | nil => simp [dictSet, dictGet?]
  | cons p t ih =>
      obtain ⟨k1, v1⟩ := p
      by_cases h : k1 = k
      · simp [dictSet, h, dictGet?]
      · simp [dictSet, h, dictGet?, ih]

theorem dictGet_set_ne (d : PyDict) (k k' : String) (v : PyVal)
    (h : k' ≠ k) : dictGet? (dictSet d k v) k' = dictGet? d k' := by
  have h' : ¬(k = k') := fun hh => h hh.symm
  induction d with
  | nil => simp [dictSet, dictGet?, h']
  | cons p t ih =>
      obtain ⟨k1, v1⟩ := p
      by_cases hk : k1 = k
      · subst hk
        simp [dictSet, dictGet?, h']
      · simp only [dictSet, if_neg hk, dictGet?]
        by_cases hk' : k1 = k'
        · simp [hk']
        · simp [hk', ih]

theorem lruLookup_eraseKey_ne (st : LruSt) (k k' : String) (h : k ≠ k') :
    lruLookup (eraseKey st k') k = lruLookup st k := by
  have h' : ¬(k' = k) := fun hh => h hh.symm
  induction st with
  | nil => simp [eraseKey]
  | cons p t ih =>
      obtain ⟨k1, v1⟩ := p
      by_cases hk : k1 = k'
      · subst hk
        simp [eraseKey, lruLookup, h', ih]
      · simp only [eraseKey, if_neg hk, lruLookup]
        by_cases hk1 : k1 = k
        · simp [hk1]
        · simp [hk1, ih]

theorem eraseKey_length_le (st : LruSt) (k : String) :
    (eraseKey st k).length ≤ st.length := by
  induction st with
  | nil => simp [eraseKey]
  | cons p t ih =>
      obtain ⟨k1, v1⟩ := p
      by_cases hk : k1 = k
      · simp only [eraseKey, if_pos hk, List.length_cons]
        omega
      · simp only [eraseKey, if_neg hk, List.length_cons]
        omega

theorem eraseKey_length_lt (st : LruSt) (k : String) (v : AuthResp)
    (h : lruLookup st k = some v) : (eraseKey st k).length < st.length := by
  induction st with
  | nil => simp [lruLookup] at h
  | cons p t ih =>
      obtain ⟨k1, v1⟩ := p
      by_cases hk : k1 = k
      · simp only [eraseKey, if_pos hk, List.length_cons]
        have := eraseKey_length_le t k
        omega
      · simp only [lruLookup, if_neg hk] at h
        simp only [eraseKey, if_neg hk, List.length_cons]
        have := ih h
        omega

theorem exceptMap_ok_inv {α β : Type} (f : α → β) (x : Except PyExc α)
    (b : β) (h : x.map f = .ok b) : ∃ a, x = .ok a ∧ b = f a := by
  cases x with
  | error e => simp [Except.map] at h
  | ok a =>
      refine ⟨a, rfl, ?_⟩
      simpa [Except.map] using h.symm

theorem paginate_none (l : List AppRecord) :
    paginate .none .none l = l := rfl

theorem lruLookup_cons_self (t : LruSt) (k : String) (v : AuthResp) :
    lruLookup ((k, v) :: t) k = some v := by
  simp [lruLookup]

theorem lruLookup_cons_ne (t : LruSt) (k k1 : String) (v1 : AuthResp)
    (h : k ≠ k1) : lruLookup ((k1, v1) :: t) k = lruLookup t k := by
  have h' : ¬(k1 = k) := fun hh => h hh.symm
  simp [lruLookup, h']

theorem authApps_ok_empty (db : List AppRecord)
    (provider : String → AuthResp) (st : LruSt) (token : String)
    (pn lim ob cf ct mf mt ai an ast cb so : PyVal) (o : AuthReadOut)
    (hv : truthyResp (get_authorised_form_list provider st token).value = false)
    (h : get_auth_applications_and_count db provider st token pn lim ob
      cf ct mf mt ai an ast cb so = .ok o) :
    o.body = [] ∧ o.count = 0
    ∧ o.fetched = (get_authorised_form_list provider st token).fetched
    ∧ o.repoCalled = false := by
  obtain ⟨a, ha, hb⟩ := exceptMap_ok_inv _ _ _ h
  subst hb
  simp [authAppsCore, hv, dump_many]

theorem allCount_ok_empty (db : List AppRecord)
    (provider : String → AuthResp) (st : LruSt) (token : String)
    (pn lim : PyVal) (o : AuthReadOut)
    (hv : truthyResp (get_authorised_form_list provider st token).value = false)
    (h : get_all_application_count db provider st token pn lim = .ok o) :
    o.body = [] ∧ o.count = 0
    ∧ o.fetched = (get_authorised_form_list provider st token).fetched
    ∧ o.repoCalled = false := by
  cases hp : pyIntC pn with
  | error e => simp [get_all_application_count, hp] at h
  | ok p =>
      cases hq : pyIntC lim with
      | error e => simp [get_all_application_count, hp, hq] at h
      | ok q =>
          simp only [get_all_application_count, hp, hq, hv,
            Bool.false_eq_true, if_false, Except.ok.injEq] at h
          subst h
          simp [dump_many]

theorem authById_empty (db : List AppRecord) (provider : String → AuthResp)
    (st : LruSt) (aid : Int) (token : String)
    (hv : truthyResp (get_authorised_form_list provider st token).value = false) :
    (get_auth_by_application_id db provider st aid token).body = .many []
    ∧ (get_auth_by_application_id db provider st aid token).status
        = HTTPStatus.FORBIDDEN
    ∧ (get_auth_by_application_id db provider st aid token).fetched
        = (get_authorised_form_list provider st token).fetched
    ∧ (get_auth_by_application_id db provider st aid token).repoCalled
        = false := by
  simp [get_auth_by_application_id, hv, dump_many]

theorem create_application_eq (findMapper : PyVal → Option Mapper)
    (bpm : StartPayload → BPMOutcome) (newId : Int) (now : String)
    (data : PyDict) (store : List AppEntity) (fid : PyVal) (m : Mapper)
    (h1 : dictGet? data "form_id" = some fid)
    (h2 : findMapper fid = some m) :
    create_application findMapper bpm newId now data store =
      { result := (create_core bpm newId now (mutatedData data m) store).1
        data := mutatedData data m
        store := (create_core bpm newId now (mutatedData data m) store).2.1
        bpmCalled := (create_core bpm newId now (mutatedData data m) store).2.2 } := by
  have e1 : dictGet? (dictSet data "application_status"
      (.str NEW_APPLICATION_STATUS)) "form_id" = some fid := by
    rw [dictGet_set_ne _ _ _ _ (by decide)]
    exact h1
  simp [create_application, mutatedData, e1, h2]

theorem create_core_append (bpm : StartPayload → BPMOutcome) (newId : Int)
    (now : String) (d : PyDict) (store : List AppEntity) :
    ∃ app, (create_core bpm newId now d store).2.1 = store ++ [app]
      ∧ app.application_status
          = (create_from_dict d newId now).application_status := by
  dsimp only [create_core]
  split
  · exact ⟨_, rfl, rfl⟩
  · split
    · split
      · exact ⟨_, rfl, rfl⟩
      · exact ⟨_, rfl, rfl⟩
    · exact ⟨_, rfl, rfl⟩
    · split
      · exact ⟨_, rfl, rfl⟩
      · exact ⟨_, rfl, rfl⟩

theorem create_core_supplied (bpm : StartPayload → BPMOutcome) (newId : Int)
    (now : String) (d : PyDict) (store : List AppEntity) (pv : PyVal)
    (h : dictGet? d "process_instance_id" = some pv) :
    create_core bpm newId now d store =
      (.ok { create_from_dict d newId now with process_instance_id := some pv },
       store ++ [{ create_from_dict d newId now with
         process_instance_id := some pv }], false) := by
  have hcont : dictContains d "process_instance_id" = true := by
    simp [dictContains, h]
  simp [create_core, hcont, dictGetD, h]

theorem create_core_nopid_ok (bpm : StartPayload → BPMOutcome) (newId : Int)
    (now : String) (d : PyDict) (store : List AppEntity) (resp : PyDict)
    (pid : PyVal)
    (h : dictGet? d "process_instance_id" = Option.none)
    (h4 : ∀ p, bpm p = .returns (some resp))
    (h5 : dictGet? resp "id" = some pid) :
    create_core bpm newId now d store =
      (.ok { create_from_dict d newId now with process_instance_id := some pid },
       store ++ [{ create_from_dict d newId now with
         process_instance_id := some pid }], true) := by
  have hcont : dictContains d "process_instance_id" = false := by
    simp [dictContains, h]
  simp [create_core, hcont, h4, h5]

theorem create_core_raises (bpm : StartPayload → BPMOutcome) (newId : Int)
    (now : String) (d : PyDict) (store : List AppEntity) (e : PyExc)
    (h : dictGet? d "process_instance_id" = Option.none)
    (h4 : ∀ p, bpm p = .raises e) :
    create_core bpm newId now d store =
      ((match e with
        | .typeError =>
            CreateResult.badGateway
              "Camunda workflow not able to create a task" .typeError
        | _ =>
            CreateResult.badRequest
              "Camunda Process Mapper Key not provided" e),
       store ++ [create_from_dict d newId now], true) := by
  have hcont : dictContains d "process_instance_id" = false := by
    simp [dictContains, h]
  simp only [create_core, hcont, Bool.false_eq_true, if_false, h4]
  cases e <;> rfl

theorem mutatedData_status (data : PyDict) (m : Mapper) :
    dictGet? (mutatedData data m) "application_status"
      = some (.str NEW_APPLICATION_STATUS) := by
  unfold mutatedData
  rw [dictGet_set_ne _ _ _ _ (by decide), dictGet_set_ne _ _ _ _ (by decide),
    dictGet_set_eq]

theorem mutatedData_other (data : PyDict) (m : Mapper) (k : String)
    (hk1 : k ≠ "application_status") (hk2 : k ≠ "form_process_mapper_id")
    (hk3 : k ≠ "application_name") :
    dictGet? (mutatedData data m) k = dictGet? data k := by
  unfold mutatedData
  rw [dictGet_set_ne _ _ _ _ hk3, dictGet_set_ne _ _ _ _ hk2,
    dictGet_set_ne _ _ _ _ hk1]

/-! Claim theorems. -/

/-- C2: for every credential whose authorized-forms lookup yields an
empty (falsy) result, the authorization-scoped reads
`get_auth_applications_and_count` and `get_all_application_count`
return the empty serialized result with count 0, and the
single-application lookup `get_auth_by_application_id` returns the
forbidden status with an empty body — all without invoking any
repository find operation. -/
theorem empty_auth_fail_closed (db : List AppRecord)
    (provider : String → AuthResp) (st : LruSt) (token : String)
    (pn lim ob cf ct mf mt ai an ast cb so : PyVal) (aid : Int)
    (o1 o2 : AuthReadOut)
    (hv : truthyResp (get_authorised_form_list provider st token).value = false)
    (h1 : get_auth_applications_and_count db provider st token pn lim ob
      cf ct mf mt ai an ast cb so = .ok o1)
    (h2 : get_all_application_count db provider st token pn lim = .ok o2) :
    (o1.body = [] ∧ o1.count = 0 ∧ o1.repoCalled = false)
    ∧ (o2.body = [] ∧ o2.count = 0 ∧ o2.repoCalled = false)
    ∧ (get_auth_by_application_id db provider st aid token).body = .many []
    ∧ (get_auth_by_application_id db provider st aid token).status
        = HTTPStatus.FORBIDDEN
    ∧ (get_auth_by_application_id db provider st aid token).repoCalled
        = false := by
  obtain ⟨e1, e2, _, e3⟩ := authApps_ok_empty db provider st token pn lim ob
    cf ct mf mt ai an ast cb so o1 hv h1
  obtain ⟨f1, f2, _, f3⟩ := allCount_ok_empty db provider st token pn lim o2 hv h2
  obtain ⟨g1, g2, _, g3⟩ := authById_empty db provider st aid token hv
  exact ⟨⟨e1, e2, e3⟩, ⟨f1, f2, f3⟩, g1, g2, g3⟩

/-- Witness for C2 at a concrete empty authorized-forms response. -/
theorem empty_auth_fail_closed_witness :
    (((⟨[], 0, [("t", some [])], true, false⟩ : AuthReadOut).body = []
      ∧ (⟨[], 0, [("t", some [])], true, false⟩ : AuthReadOut).count = 0
      ∧ (⟨[], 0, [("t", some [])], true, false⟩ : AuthReadOut).repoCalled = false)
    ∧ ((⟨[], 0, [("t", some [])], true, false⟩ : AuthReadOut).body = []
      ∧ (⟨[], 0, [("t", some [])], true, false⟩ : AuthReadOut).count = 0
      ∧ (⟨[], 0, [("t", some [])], true, false⟩ : AuthReadOut).repoCalled = false)
    ∧ (get_auth_by_application_id [] (fun _ => some []) [] 1 "t").body = .many []
    ∧ (get_auth_by_application_id [] (fun _ => some []) [] 1 "t").status
        = HTTPStatus.FORBIDDEN
    ∧ (get_auth_by_application_id [] (fun _ => some []) [] 1 "t").repoCalled
        = false) :=
  empty_auth_fail_closed [] (fun _ => some []) [] "t"
    .none .none .none .none .none .none .none .none .none .none .none .none 1
    ⟨[], 0, [("t", some [])], true, false⟩
    ⟨[], 0, [("t", some [])], true, false⟩
    (by decide) (by decide) (by decide)

/-- C3: `get_authorised_form_list` memoizes per exact credential string
through its `lru_cache(maxsize=32)` decorator.  A call with a credential
still resident in the cache returns the identical cached result with no
remote fetch (moving the entry to the most-recently-used position); the
cache never grows beyond 32 entries; and a call with a new 33rd distinct
credential on a full cache inserts it in front and drops the final —
least recently used, since the state is kept in most-recently-used-first
order — entry. -/
theorem authorised_form_list_lru (provider : String → AuthResp)
    (st st2 st3 : LruSt) (token t2 t3 : String) (v : AuthResp)
    (h1 : lruLookup st token = some v)
    (h2 : st2.length ≤ LRU_MAXSIZE)
    (h3 : st3.length = LRU_MAXSIZE)
    (h4 : lruLookup st3 t3 = Option.none) :
    (get_authorised_form_list provider st token).value = v
    ∧ (get_authorised_form_list provider st token).fetched = false
    ∧ (get_authorised_form_list provider st token).state
        = (token, v) :: eraseKey st token
    ∧ (get_authorised_form_list provider st2 t2).state.length ≤ LRU_MAXSIZE
    ∧ (get_authorised_form_list provider st3 t3).state
        = (t3, provider t3) :: st3.dropLast := by
  refine ⟨?_, ?_, ?_, ?_, ?_⟩
  · simp [get_authorised_form_list, h1]
  · simp [get_authorised_form_list, h1]
  · simp [get_authorised_form_list, h1]
  · cases hl : lruLookup st2 t2 with
    | some v2 =>
        simp only [get_authorised_form_list, hl]
        have := eraseKey_length_lt st2 t2 v2 hl
        simp only [List.length_cons]
        omega
    | none =>
        simp only [get_authorised_form_list, hl]
        split
        · simp only [List.length_dropLast, List.length_cons]
          omega
        · rename_i hlen
          simp only [List.length_cons] at hlen ⊢
          omega
  · simp only [get_authorised_form_list, h4]
    have hlt : LRU_MAXSIZE < ((t3, provider t3) :: st3).length := by
      simp [List.length_cons, h3]
    rw [if_pos hlt]
    cases st3 with
    | nil => simp [LRU_MAXSIZE] at h3
    | cons x xs => exact List.dropLast_cons₂ ..

/-- Witness for C3: a hit on a cached credential, a bound check, and the
eviction of the least-recently-used entry of a full 32-entry cache by a
33rd distinct credential. -/
theorem authorised_form_list_lru_witness :
    (get_authorised_form_list (fun _ => Option.none)
        [("a", some [⟨"F"⟩])] "a").value = some [⟨"F"⟩]
    ∧ (get_authorised_form_list (fun _ => Option.none)
        [("a", some [⟨"F"⟩])] "a").fetched = false
    ∧ (get_authorised_form_list (fun _ => Option.none)
        [("a", some [⟨"F"⟩])] "a").state
        = ("a", some [⟨"F"⟩]) :: eraseKey [("a", some [⟨"F"⟩])] "a"
    ∧ (get_authorised_form_list (fun _ => Option.none) [] "b").state.length
        ≤ LRU_MAXSIZE
    ∧ (get_authorised_form_list (fun _ => Option.none)
        ((List.range 32).map (fun i => (toString i, (Option.none : AuthResp))))
        "x").state
        = ("x", (fun (_ : String) => (Option.none : AuthResp)) "x")
          :: ((List.range 32).map
              (fun i => (toString i, (Option.none : AuthResp)))).dropLast :=
  authorised_form_list_lru (fun _ => Option.none)
    [("a", some [⟨"F"⟩])] []
    ((List.range 32).map (fun i => (toString i, (Option.none : AuthResp))))
    "a" "b" "x" (some [⟨"F"⟩])
    (by decide) (by decide) (by decide) (by decide)

/-- C10: the authorization cache memoizes falsy provider responses too.
A first lookup caches the provider's response verbatim even when falsy;
while a falsy value is cached, every authorization-scoped read for that
credential returns the fail-closed empty result (count 0, forbidden for
the single-application lookup) with no remote fetch; and the entry
survives a cache step on a different credential as long as no eviction
pressure exists (a hit, or fewer than 32 resident entries). -/
theorem cache_memoizes_falsy (db : List AppRecord)
    (provider : String → AuthResp) (st0 st : LruSt)
    (token token' : String) (v : AuthResp) (aid : Int)
    (pn lim ob cf ct mf mt ai an ast cb so : PyVal) (o1 o2 : AuthReadOut)
    (hm : lruLookup st0 token = Option.none)
    (hc : lruLookup st token = some v)
    (hv : truthyResp v = false)
    (h1 : get_auth_applications_and_count db provider st token pn lim ob
      cf ct mf mt ai an ast cb so = .ok o1)
    (h2 : get_all_application_count db provider st token pn lim = .ok o2)
    (hne : token ≠ token')
    (hroom : st.length < LRU_MAXSIZE ∨ (lruLookup st token').isSome = true) :
    ((get_authorised_form_list provider st0 token).fetched = true
     ∧ lruLookup (get_authorised_form_list provider st0 token).state token
         = some (provider token))
    ∧ (o1.body = [] ∧ o1.count = 0 ∧ o1.fetched = false
       ∧ o1.repoCalled = false)
    ∧ (o2.body = [] ∧ o2.count = 0 ∧ o2.fetched = false
       ∧ o2.repoCalled = false)
    ∧ ((get_auth_by_application_id db provider st aid token).body = .many []
       ∧ (get_auth_by_application_id db provider st aid token).status
           = HTTPStatus.FORBIDDEN
       ∧ (get_auth_by_application_id db provider st aid token).fetched = false
       ∧ (get_auth_by_application_id db provider st aid token).repoCalled
           = false)
    ∧ lruLookup (get_authorised_form_list provider st token').state token
        = some v := by
  have hstepv : truthyResp (get_authorised_form_list provider st token).value
      = false := by
    simp [get_authorised_form_list, hc, hv]
  have hstepf : (get_authorised_form_list provider st token).fetched = false := by
    simp [get_authorised_form_list, hc]
  refine ⟨⟨?_, ?_⟩, ?_, ?_, ?_, ?_⟩
  · simp [get_authorised_form_list, hm]
  · simp only [get_authorised_form_list, hm]
    split
    · rename_i hlen
      simp only [List.length_cons] at hlen
      cases st0 with
      | nil => simp [LRU_MAXSIZE] at hlen
      | cons x xs =>
          rw [List.dropLast_cons₂]
          exact lruLookup_cons_self _ _ _
    · exact lruLookup_cons_self _ _ _
  · obtain ⟨e1, e2, e3, e4⟩ := authApps_ok_empty db provider st token pn lim
      ob cf ct mf mt ai an ast cb so o1 hstepv h1
    exact ⟨e1, e2, by rw [e3, hstepf], e4⟩
  · obtain ⟨f1, f2, f3, f4⟩ := allCount_ok_empty db provider st token pn lim
      o2 hstepv h2
    exact ⟨f1, f2, by rw [f3, hstepf], f4⟩
  · obtain ⟨g1, g2, g3, g4⟩ := authById_empty db provider st aid token hstepv
    exact ⟨g1, g2, by rw [g3, hstepf], g4⟩
  · cases hl : lruLookup st token' with
    | some v2 =>
        simp only [get_authorised_form_list, hl]
        rw [lruLookup_cons_ne _ _ _ _ hne]
        rw [lruLookup_eraseKey_ne _ _ _ hne]
        exact hc
    | none =>
        have hsz : st.length < LRU_MAXSIZE := by
          cases hroom with
          | inl h => exact h
          | inr h => simp [hl] at h
        simp only [get_authorised_form_list, hl]
        have hnot : ¬(LRU_MAXSIZE < ((token', provider token') :: st).length) := by
          simp only [List.length_cons]
          omega
        rw [if_neg hnot]
        rw [lruLookup_cons_ne _ _ _ _ hne]
        exact hc

/-- Witness for C10 at a concretely cached falsy (empty-list)
authorization response. -/
theorem cache_memoizes_falsy_witness :
    (((get_authorised_form_list (fun _ => some []) [] "a").fetched = true
     ∧ lruLookup (get_authorised_form_list (fun _ => some []) [] "a").state "a"
         = some ((fun (_ : String) => (some [] : AuthResp)) "a"))
    ∧ (((⟨[], 0, [("a", some [])], false, false⟩ : AuthReadOut).body = []
       ∧ (⟨[], 0, [("a", some [])], false, false⟩ : AuthReadOut).count = 0
       ∧ (⟨[], 0, [("a", some [])], false, false⟩ : AuthReadOut).fetched = false
       ∧ (⟨[], 0, [("a", some [])], false, false⟩ : AuthReadOut).repoCalled = false))
    ∧ (((⟨[], 0, [("a", some [])], false, false⟩ : AuthReadOut).body = []
       ∧ (⟨[], 0, [("a", some [])], false, false⟩ : AuthReadOut).count = 0
       ∧ (⟨[], 0, [("a", some [])], false, false⟩ : AuthReadOut).fetched = false
       ∧ (⟨[], 0, [("a", some [])], false, false⟩ : AuthReadOut).repoCalled = false))
    ∧ ((get_auth_by_application_id [] (fun _ => some []) [("a", some [])] 1 "a").body
         = .many []
       ∧ (get_auth_by_application_id [] (fun _ => some []) [("a", some [])] 1 "a").status
           = HTTPStatus.FORBIDDEN
       ∧ (get_auth_by_application_id [] (fun _ => some []) [("a", some [])] 1 "a").fetched
           = false
       ∧ (get_auth_by_application_id [] (fun _ => some []) [("a", some [])] 1 "a").repoCalled
           = false)
    ∧ lruLookup (get_authorised_form_list (fun _ => some [])
        [("a", some [])] "b").state "a" = some (some [])) :=
  cache_memoizes_falsy [] (fun _ => some []) [] [("a", some [])] "a" "b"
    (some []) 1 .none .none .none .none .none .none .none .none .none .none
    .none .none
    ⟨[], 0, [("a", some [])], false, false⟩
    ⟨[], 0, [("a", some [])], false, false⟩
    (by decide) (by decide) (by decide) (by decide) (by decide)
    (by decide) (Or.inl (by decide))

theorem pyIntC_falsy (v : PyVal) (h : truthy v = false) :
    pyIntC v = .ok v := by
  simp [pyIntC, h]

theorem pyStrC_falsy (v : PyVal) (h : truthy v = false) : pyStrC v = v := by
  simp [pyStrC, h]

theorem pvMatch_falsy (f x : PyVal) (h : truthy f = false) :
    pvMatch f x = true := by
  simp [pvMatch, h]

theorem find_by_form_names_congr (db : List AppRecord)
    (form_names : List String) (ai ai' an ast cb cb' : PyVal)
    (pn lim ob mf mt so cf ct : PyVal)
    (hai : ∀ x, pvMatch ai x = pvMatch ai' x)
    (hcb : ∀ x, pvMatch cb x = pvMatch cb' x) :
    find_by_form_names db form_names ai an ast cb pn lim ob mf mt so cf ct
      = find_by_form_names db form_names ai' an ast cb' pn lim ob mf mt so
          cf ct := by
  unfold find_by_form_names
  have hf : db.filter (recordMatches form_names ai an ast cb cf ct mf mt)
      = db.filter (recordMatches form_names ai' an ast cb' cf ct mf mt) := by
    refine List.filter_congr ?_
    intro r _
    simp [recordMatches, hai, hcb]
  rw [hf]

theorem authAppsCore_congr (db : List AppRecord)
    (provider : String → AuthResp) (st : LruSt) (token : String)
    (a a' : CoercedArgs) (cf ct mf mt : PyVal)
    (hpn : a.page_no = a'.page_no) (hlim : a.limit = a'.limit)
    (hob : a.order_by = a'.order_by)
    (han : a.application_name = a'.application_name)
    (hast : a.application_status = a'.application_status)
    (hso : a.sort_order = a'.sort_order)
    (hai : ∀ x, pvMatch a.application_id x = pvMatch a'.application_id x)
    (hcb : ∀ x, pvMatch a.created_by x = pvMatch a'.created_by x) :
    authAppsCore db provider st token a cf ct mf mt
      = authAppsCore db provider st token a' cf ct mf mt := by
  unfold authAppsCore
  dsimp only
  rw [hpn, hlim, hob, han, hast, hso,
    find_by_form_names_congr db
      (authFormNames (get_authorised_form_list provider st token).value)
      a.application_id a'.application_id a'.application_name
      a'.application_status a.created_by a'.created_by
      a'.page_no a'.limit a'.order_by mf mt a'.sort_order cf ct hai hcb]

theorem coerceAuthArgs_swap_ai (pn lim ob an ast cb so ai ai' : PyVal)
    (h : pyIntC ai = pyIntC ai') :
    coerceAuthArgs pn lim ob ai an ast cb so
      = coerceAuthArgs pn lim ob ai' an ast cb so := by
  unfold coerceAuthArgs
  rw [h]

theorem get_auth_swap_ai (db : List AppRecord) (provider : String → AuthResp)
    (st : LruSt) (token : String)
    (pn lim ob cf ct mf mt an ast cb so ai ai' : PyVal)
    (h : pyIntC ai = pyIntC ai') :
    get_auth_applications_and_count db provider st token pn lim ob cf ct mf
      mt ai an ast cb so
    = get_auth_applications_and_count db provider st token pn lim ob cf ct
        mf mt ai' an ast cb so := by
  unfold get_auth_applications_and_count
  rw [coerceAuthArgs_swap_ai pn lim ob an ast cb so ai ai' h]

theorem get_auth_falsy_ai (db : List AppRecord) (provider : String → AuthResp)
    (st : LruSt) (token : String)
    (pn lim ob cf ct mf mt an ast cb so ai ai' : PyVal)
    (hai : truthy ai = false) (hai' : truthy ai' = false) :
    get_auth_applications_and_count db provider st token pn lim ob cf ct mf
      mt ai an ast cb so
    = get_auth_applications_and_count db provider st token pn lim ob cf ct
        mf mt ai' an ast cb so := by
  cases hp : pyIntC pn with
  | error e =>
      simp [get_auth_applications_and_count, coerceAuthArgs, hp, Except.map,
        bind, Except.bind, Functor.map]
  | ok p =>
      cases hq : pyIntC lim with
      | error e =>
          simp [get_auth_applications_and_count, coerceAuthArgs, hp, hq,
            Except.map, bind, Except.bind, Functor.map]
      | ok q =>
          simp only [get_auth_applications_and_count, coerceAuthArgs, hp, hq,
            pyIntC_falsy ai hai, pyIntC_falsy ai' hai', bind, Except.bind,
            pure, Except.pure, Except.map, Functor.map]
          refine congrArg _ (authAppsCore_congr db provider st token _ _
            cf ct mf mt rfl rfl rfl rfl rfl rfl ?_ ?_)
          · intro x
            simp [pvMatch_falsy ai x hai, pvMatch_falsy ai' x hai']
          · intro x
            rfl

theorem get_auth_falsy_cb (db : List AppRecord) (provider : String → AuthResp)
    (st : LruSt) (token : String)
    (pn lim ob cf ct mf mt ai an ast so cb cb' : PyVal)
    (hcb : truthy cb = false) (hcb' : truthy cb' = false) :
    get_auth_applications_and_count db provider st token pn lim ob cf ct mf
      mt ai an ast cb so
    = get_auth_applications_and_count db provider st token pn lim ob cf ct
        mf mt ai an ast cb' so := by
  cases hp : pyIntC pn with
  | error e =>
      simp [get_auth_applications_and_count, coerceAuthArgs, hp, Except.map,
        bind, Except.bind, Functor.map]
  | ok p =>
      cases hq : pyIntC lim with
      | error e =>
          simp [get_auth_applications_and_count, coerceAuthArgs, hp, hq,
            Except.map, bind, Except.bind, Functor.map]
      | ok q =>
          cases ha : pyIntC ai with
          | error e =>
              simp [get_auth_applications_and_count, coerceAuthArgs, hp, hq,
                ha, Except.map, bind, Except.bind, Functor.map]
          | ok a0 =>
              simp only [get_auth_applications_and_count, coerceAuthArgs, hp,
                hq, ha, pyStrC_falsy cb hcb, pyStrC_falsy cb' hcb', bind,
                Except.bind, pure, Except.pure, Except.map, Functor.map]
              refine congrArg _ (authAppsCore_congr db provider st token _ _
                cf ct mf mt rfl rfl rfl rfl rfl rfl ?_ ?_)
              · intro x
                rfl
              · intro x
                simp [pvMatch_falsy cb x hcb, pvMatch_falsy cb' x hcb']

/-- C7: the filter/pagination coercion contract.  A truthy numeric input
— a numeric string included — is coerced to an integer and a truthy
textual input to a string; a falsy input (None, empty string, or 0)
passes through uncoerced; and at the read-operation level a falsy filter
imposes no constraint: a string "5" as application_id behaves exactly as
the integer 5, and a falsy application_id or created_by (the value 0 in
particular) behaves exactly as an absent one. -/
theorem filter_coercion_contract (db : List AppRecord)
    (provider : String → AuthResp) (st : LruSt) (token : String)
    (pn lim ob cf ct mf mt an ast so : PyVal)
    (v w : PyVal) (s s2 : String) (n : Int)
    (hv : truthy v = false)
    (hw : truthy w = false)
    (hs : parseIntPy s = some n)
    (hs1 : s ≠ "")
    (hs2 : s2 ≠ "") :
    (pyIntC v = .ok v ∧ pyStrC v = v)
    ∧ pyIntC (.str s) = .ok (.int n)
    ∧ pyStrC (.str s2) = .str s2
    ∧ get_auth_applications_and_count db provider st token pn lim ob cf ct
        mf mt (.str "5") an ast w so
      = get_auth_applications_and_count db provider st token pn lim ob cf ct
          mf mt (.int 5) an ast w so
    ∧ get_auth_applications_and_count db provider st token pn lim ob cf ct
        mf mt v an ast w so
      = get_auth_applications_and_count db provider st token pn lim ob cf ct
          mf mt .none an ast w so
    ∧ get_auth_applications_and_count db provider st token pn lim ob cf ct
        mf mt v an ast w so
      = get_auth_applications_and_count db provider st token pn lim ob cf ct
          mf mt v an ast .none so := by
  refine ⟨⟨pyIntC_falsy v hv, pyStrC_falsy v hv⟩, ?_, ?_, ?_, ?_, ?_⟩
  · simp [pyIntC, pyToInt, truthy, hs1, hs]
  · simp [pyStrC, pyToStr, truthy, hs2]
  · exact get_auth_swap_ai db provider st token pn lim ob cf ct mf mt an ast
      w so (.str "5") (.int 5) (by decide)
  · exact get_auth_falsy_ai db provider st token pn lim ob cf ct mf mt an ast
      w so v .none hv rfl
  · exact get_auth_falsy_cb db provider st token pn lim ob cf ct mf mt v an
      ast so w .none hw rfl

/-- Witness for C7: the quirk value 0 and the numeric string "5" at a
concrete database. -/
theorem filter_coercion_contract_witness :
    (pyIntC (.int 0) = .ok (.int 0) ∧ pyStrC (.int 0) = .int 0)
    ∧ pyIntC (.str "5") = .ok (.int 5)
    ∧ pyStrC (.str "x") = .str "x"
    ∧ get_auth_applications_and_count [⟨5, "FormA", "new", "me", 1, 2⟩]
        (fun _ => some [⟨"FormA"⟩]) [] "t" .none .none .none .none .none
        .none .none (.str "5") .none .none (.str "") .none
      = get_auth_applications_and_count [⟨5, "FormA", "new", "me", 1, 2⟩]
          (fun _ => some [⟨"FormA"⟩]) [] "t" .none .none .none .none .none
          .none .none (.int 5) .none .none (.str "") .none
    ∧ get_auth_applications_and_count [⟨5, "FormA", "new", "me", 1, 2⟩]
        (fun _ => some [⟨"FormA"⟩]) [] "t" .none .none .none .none .none
        .none .none (.int 0) .none .none (.str "") .none
      = get_auth_applications_and_count [⟨5, "FormA", "new", "me", 1, 2⟩]
          (fun _ => some [⟨"FormA"⟩]) [] "t" .none .none .none .none .none
          .none .none .none .none .none (.str "") .none
    ∧ get_auth_applications_and_count [⟨5, "FormA", "new", "me", 1, 2⟩]
        (fun _ => some [⟨"FormA"⟩]) [] "t" .none .none .none .none .none
        .none .none (.int 0) .none .none (.str "") .none
      = get_auth_applications_and_count [⟨5, "FormA", "new", "me", 1, 2⟩]
          (fun _ => some [⟨"FormA"⟩]) [] "t" .none .none .none .none .none
          .none .none (.int 0) .none .none .none .none :=
  filter_coercion_contract [⟨5, "FormA", "new", "me", 1, 2⟩]
    (fun _ => some [⟨"FormA"⟩]) [] "t" .none .none .none .none .none .none
    .none .none .none .none (.int 0) (.str "") "5" "x" 5
    (by decide) (by decide) (by decide) (by decide) (by decide)

theorem pyIntC_none : pyIntC .none = .ok .none := rfl

theorem authAppsCore_count_indep (db : List AppRecord)
    (provider : String → AuthResp) (st : LruSt) (token : String)
    (p q p' q' ob ai an ast cb so cf ct mf mt : PyVal) :
    (authAppsCore db provider st token ⟨p, q, ob, ai, an, ast, cb, so⟩
      cf ct mf mt).count
    = (authAppsCore db provider st token ⟨p', q', ob, ai, an, ast, cb, so⟩
        cf ct mf mt).count := by
  cases htr : truthyResp (get_authorised_form_list provider st token).value with
  | true => simp [authAppsCore, htr, find_by_form_names]
  | false => simp [authAppsCore, htr]

theorem authAppsCore_body_len (db : List AppRecord)
    (provider : String → AuthResp) (st : LruSt) (token : String)
    (ob ai an ast cb so cf ct mf mt : PyVal) :
    (authAppsCore db provider st token ⟨.none, .none, ob, ai, an, ast, cb, so⟩
      cf ct mf mt).body.length
    = (authAppsCore db provider st token ⟨.none, .none, ob, ai, an, ast, cb,
        so⟩ cf ct mf mt).count := by
  cases htr : truthyResp (get_authorised_form_list provider st token).value with
  | true => simp [authAppsCore, htr, find_by_form_names, dump_many, paginate_none]
  | false => simp [authAppsCore, htr, dump_many]

theorem pySliceIdx_ofNat (len i : Nat) (h : i ≤ len) :
    pySliceIdx len (i : Int) = i := by
  unfold pySliceIdx
  rw [if_neg (by omega)]
  simp [Int.toNat_ofNat, Nat.min_eq_left h]

theorem pySlice_middle (u v w : List Char) :
    pySlice (u ++ (v ++ w)) (u.length : Int)
      ((u.length : Int) + (v.length : Int)) = v := by
  unfold pySlice
  have hlen : (u ++ (v ++ w)).length = u.length + (v.length + w.length) := by
    simp
  have h1 : pySliceIdx (u ++ (v ++ w)).length (u.length : Int) = u.length := by
    rw [hlen]
    exact pySliceIdx_ofNat _ _ (by omega)
  have h2 : pySliceIdx (u ++ (v ++ w)).length
      ((u.length : Int) + (v.length : Int)) = u.length + v.length := by
    have hc : (u.length : Int) + (v.length : Int)
        = ((u.length + v.length : Nat) : Int) := by push_cast; ring
    rw [hc, hlen]
    exact pySliceIdx_ofNat _ _ (by omega)
  rw [h1, h2, List.take_append, List.take_left, List.drop_left]

theorem pySlice_suffix (u w : List Char) :
    pySlice (u ++ w) (u.length : Int) (((u ++ w).length : Nat) : Int) = w := by
  unfold pySlice
  have h1 : pySliceIdx (u ++ w).length (((u ++ w).length : Nat) : Int)
      = (u ++ w).length := pySliceIdx_ofNat _ _ le_rfl
  have h2 : pySliceIdx (u ++ w).length (u.length : Int) = u.length := by
    refine pySliceIdx_ofNat _ _ ?_
    simp
  rw [h1, h2, List.take_length, List.drop_left]

/-- C6 counterexample: not every read-path variant returns a (serialized
list, total count) pair — `get_all_applications` completes returning
only the bare serialized page. -/
theorem read_variants_pair_shape_cex :
    isPairRet (get_all_applications_ret [⟨1, "FormA", "new", "me", 5, 6⟩]
      (.int 1) (.int 1)) = false
    ∧ get_all_applications_ret [⟨1, "FormA", "new", "me", 5, 6⟩]
      (.int 1) (.int 1) = .ok (.bare [⟨1, "FormA", "new", "me", 5, 6⟩]) := by
  constructor <;> rfl

/-- C6 (amended): the count-returning read variants
(`get_auth_applications_and_count`, `get_all_application_count`,
`get_all_applications_by_user`) return (serialized list, total count)
pairs in which the count equals the size of the full filtered result set
— it is unchanged by pagination and matches the length of the
unpaginated body — while the list-only variant `get_all_applications`
returns only the serialized page with no count component. -/
theorem read_variants_count_contract (db : List AppRecord)
    (provider : String → AuthResp) (st : LruSt) (token : String)
    (user : String) (pn lim ob cf ct mf mt ai an ast cb so : PyVal)
    (oP oA oC oC0 : AuthReadOut) (uP uA : List AppRecord × Nat)
    (hP : get_auth_applications_and_count db provider st token pn lim ob cf
      ct mf mt ai an ast cb so = .ok oP)
    (hA : get_auth_applications_and_count db provider st token .none .none
      ob cf ct mf mt ai an ast cb so = .ok oA)
    (hC : get_all_application_count db provider st token pn lim = .ok oC)
    (hC0 : get_all_application_count db provider st token .none .none
      = .ok oC0)
    (hU : get_all_applications_by_user db user pn lim ob so cf ct mf mt cb
      ast an ai = .ok uP)
    (hU0 : get_all_applications_by_user db user .none .none ob so cf ct mf
      mt cb ast an ai = .ok uA) :
    (oP.count = oA.count ∧ oA.body.length = oA.count)
    ∧ (oC.count = oC0.count ∧ oC0.body.length = oC0.count)
    ∧ (uP.2 = uA.2 ∧ uA.1.length = uA.2)
    ∧ isPairRet (get_all_applications_ret db pn lim) = false := by
  cases hp : pyIntC pn with
  | error e =>
      simp [get_auth_applications_and_count, coerceAuthArgs, hp, bind,
        Except.bind, Except.map] at hP
  | ok p =>
  cases hq : pyIntC lim with
  | error e =>
      simp [get_auth_applications_and_count, coerceAuthArgs, hp, hq, bind,
        Except.bind, Except.map] at hP
  | ok q =>
  cases ha : pyIntC ai with
  | error e =>
      simp [get_auth_applications_and_count, coerceAuthArgs, hp, hq, ha,
        bind, Except.bind, Except.map] at hP
  | ok a0 =>
  refine ⟨?_, ?_, ?_, ?_⟩
  · simp only [get_auth_applications_and_count, coerceAuthArgs, hp, hq, ha,
      pyIntC_none, bind, Except.bind, pure, Except.pure, Except.map,
      Functor.map, Except.ok.injEq] at hP hA
    subst hP
    subst hA
    exact ⟨authAppsCore_count_indep db provider st token p q .none .none
      _ _ _ _ _ _ cf ct mf mt,
      authAppsCore_body_len db provider st token _ _ _ _ _ _ cf ct mf mt⟩
  · simp only [get_all_application_count, hp, hq, pyIntC_none,
      Except.ok.injEq] at hC hC0
    cases htr : truthyResp (get_authorised_form_list provider st token).value with
    | true =>
        simp only [htr, if_true, Except.ok.injEq] at hC hC0
        subst hC
        subst hC0
        simp [find_all_applications, dump_many, paginate_none]
    | false =>
        simp only [htr, Bool.false_eq_true, if_false, Except.ok.injEq]
          at hC hC0
        subst hC
        subst hC0
        simp [dump_many]
  · simp only [get_all_applications_by_user, coerceUserArgs, hp, hq, ha,
      pyIntC_none, bind, Except.bind, pure, Except.pure, Except.map,
      Functor.map, Except.ok.injEq] at hU hU0
    subst hU
    subst hU0
    simp [find_all_by_user, dump_many, paginate_none]
  · simp [isPairRet, get_all_applications_ret, get_all_applications, hp, hq,
      Except.map]

/-- Witness for C6 (amended) at a two-row database with page size 1:
each paired variant reports count 2 while returning a one-row page. -/
theorem read_variants_count_contract_witness :
    (outOneP.count = outTwoP.count ∧ outTwoP.body.length = outTwoP.count)
    ∧ (outOneP.count = outTwoP.count ∧ outTwoP.body.length = outTwoP.count)
    ∧ (pairOne.2 = pairTwo.2 ∧ pairTwo.1.length = pairTwo.2)
    ∧ isPairRet (get_all_applications_ret [rowA, rowB] (.int 1) (.int 1))
        = false :=
  read_variants_count_contract [rowA, rowB] (fun _ => some [⟨"FormA"⟩]) []
    "t" "me" (.int 1) (.int 1) .none .none .none .none .none .none .none
    .none .none .none outOneP outTwoP outOneP outTwoP pairOne pairTwo
    (by decide) (by decide) (by decide) (by decide) (by decide) (by decide)

/-- C8: `apply_attributes` on a record whose `formUrl` contains the
markers — `/form/` first occurring right after some prefix `a` and
`/submission/` first occurring right after the middle part `b` — writes
`formId := b` (the substring between the end of `/form/` and the start
of `/submission/`) and `submissionId := c` (the substring after
`/submission/`); on a record lacking `formUrl` it returns the structured
(message, bad-request) tuple instead of raising. -/
theorem apply_attributes_spec (app app2 : PyDict) (a b c : List Char)
    (h1 : dictGet? app "formUrl" = some (.str (String.mk
      (a ++ (formMarker ++ (b ++ (submissionMarker ++ c)))))))
    (h2 : pyFind (a ++ (formMarker ++ (b ++ (submissionMarker ++ c))))
      formMarker = (a.length : Int))
    (h3 : pyFind (a ++ (formMarker ++ (b ++ (submissionMarker ++ c))))
      submissionMarker = (a.length : Int) + 6 + (b.length : Int))
    (h4 : dictGet? app2 "formUrl" = Option.none) :
    (∃ d, apply_attributes app = .ok d
      ∧ dictGet? d "formId" = some (.str (String.mk b))
      ∧ dictGet? d "submissionId" = some (.str (String.mk c)))
    ∧ apply_attributes app2
        = .err "The required fields of Input request are not passed"
            HTTPStatus.BAD_REQUEST := by
  constructor
  · unfold apply_attributes
    rw [h1]
    dsimp only
    have htl : (String.mk (a ++ (formMarker ++ (b ++ (submissionMarker
        ++ c))))).toList = a ++ (formMarker ++ (b ++ (submissionMarker ++ c))) :=
      rfl
    rw [htl, h2, h3]
    have e1 : ((a ++ formMarker).length : Int) = (a.length : Int) + 6 := by
      have : formMarker.length = 6 := rfl
      push_cast [List.length_append, this]
      ring
    have hassoc : a ++ (formMarker ++ (b ++ (submissionMarker ++ c)))
        = (a ++ formMarker) ++ (b ++ (submissionMarker ++ c)) := by
      simp [List.append_assoc]
    have hmid : pySlice (a ++ (formMarker ++ (b ++ (submissionMarker ++ c))))
        ((a.length : Int) + 6) ((a.length : Int) + 6 + (b.length : Int)) = b := by
      rw [hassoc, ← e1]
      exact pySlice_middle (a ++ formMarker) b (submissionMarker ++ c)
    have e3 : (((a ++ (formMarker ++ (b ++ submissionMarker))).length : Nat) : Int)
        = (a.length : Int) + 6 + (b.length : Int) + 12 := by
      have hf : formMarker.length = 6 := rfl
      have hsm : submissionMarker.length = 12 := rfl
      push_cast [List.length_append, hf, hsm]
      ring
    have hassoc2 : a ++ (formMarker ++ (b ++ (submissionMarker ++ c)))
        = (a ++ (formMarker ++ (b ++ submissionMarker))) ++ c := by
      simp [List.append_assoc]
    have hsuf : pySlice (a ++ (formMarker ++ (b ++ (submissionMarker ++ c))))
        ((a.length : Int) + 6 + (b.length : Int) + 12)
        (((a ++ (formMarker ++ (b ++ (submissionMarker ++ c)))).length : Nat) : Int)
        = c := by
      rw [hassoc2, ← e3]
      exact pySlice_suffix (a ++ (formMarker ++ (b ++ submissionMarker))) c
    rw [hmid, hsuf]
    refine ⟨_, rfl, ?_, ?_⟩
    · rw [dictGet_set_ne _ _ _ _ (by decide), dictGet_set_eq]
    · rw [dictGet_set_eq]
  · unfold apply_attributes
    rw [h4]

/-- Witness for C8 at the concrete URL
http://h/form/F1/submission/S9 and a record lacking formUrl. -/
theorem apply_attributes_spec_witness :
    (∃ d, apply_attributes [("formUrl", .str (String.mk
        ("http://h".toList ++ (formMarker ++ ("F1".toList
          ++ (submissionMarker ++ "S9".toList))))))] = .ok d
      ∧ dictGet? d "formId" = some (.str (String.mk "F1".toList))
      ∧ dictGet? d "submissionId" = some (.str (String.mk "S9".toList)))
    ∧ apply_attributes [("x", .int 3)]
        = .err "The required fields of Input request are not passed"
            HTTPStatus.BAD_REQUEST :=
  apply_attributes_spec
    [("formUrl", .str (String.mk ("http://h".toList ++ (formMarker
      ++ ("F1".toList ++ (submissionMarker ++ "S9".toList))))))]
    [("x", .int 3)] "http://h".toList "F1".toList "S9".toList
    (by decide) (by decide) (by decide) (by decide)

/-- C9: `create_application` mutates the caller-supplied field map in
place: after any completing invocation — the supplied-process_instance_id
path included, since the mutations precede the branch — the caller's map
has `application_status` overwritten with the new-status constant and
has `form_process_mapper_id` and `application_name` set from the
resolved mapping, while every other key is left untouched. -/
theorem create_application_mutates_data (findMapper : PyVal → Option Mapper)
    (bpm : StartPayload → BPMOutcome) (newId : Int) (now : String)
    (data : PyDict) (store : List AppEntity) (fid : PyVal) (m : Mapper)
    (k : String)
    (h1 : dictGet? data "form_id" = some fid)
    (h2 : findMapper fid = some m)
    (hk1 : k ≠ "application_status") (hk2 : k ≠ "form_process_mapper_id")
    (hk3 : k ≠ "application_name") :
    dictGet? (create_application findMapper bpm newId now data store).data
        "application_status" = some (.str NEW_APPLICATION_STATUS)
    ∧ dictGet? (create_application findMapper bpm newId now data store).data
        "form_process_mapper_id" = some (.int m.id)
    ∧ dictGet? (create_application findMapper bpm newId now data store).data
        "application_name" = some (.str m.form_name)
    ∧ dictGet? (create_application findMapper bpm newId now data store).data
        k = dictGet? data k := by
  rw [create_application_eq findMapper bpm newId now data store fid m h1 h2]
  refine ⟨mutatedData_status data m, ?_, ?_, mutatedData_other data m k hk1 hk2 hk3⟩
  · unfold mutatedData
    rw [dictGet_set_ne _ _ _ _ (by decide), dictGet_set_eq]
  · unfold mutatedData
    rw [dictGet_set_eq]

/-- Witness for C9 at a concrete creation request. -/
theorem create_application_mutates_data_witness :
    dictGet? (create_application (fun _ => some ⟨4, "FormA", "K1"⟩)
        (fun _ => .returns Option.none) 10 "2021"
        [("form_id", .str "F1")] []).data "application_status"
      = some (.str NEW_APPLICATION_STATUS)
    ∧ dictGet? (create_application (fun _ => some ⟨4, "FormA", "K1"⟩)
        (fun _ => .returns Option.none) 10 "2021"
        [("form_id", .str "F1")] []).data "form_process_mapper_id"
      = some (.int (4 : Int))
    ∧ dictGet? (create_application (fun _ => some ⟨4, "FormA", "K1"⟩)
        (fun _ => .returns Option.none) 10 "2021"
        [("form_id", .str "F1")] []).data "application_name"
      = some (.str "FormA")
    ∧ dictGet? (create_application (fun _ => some ⟨4, "FormA", "K1"⟩)
        (fun _ => .returns Option.none) 10 "2021"
        [("form_id", .str "F1")] []).data "form_id"
      = dictGet? [("form_id", .str "F1")] "form_id" :=
  create_application_mutates_data (fun _ => some ⟨4, "FormA", "K1"⟩)
    (fun _ => .returns Option.none) 10 "2021" [("form_id", .str "F1")] []
    (.str "F1") ⟨4, "FormA", "K1"⟩ "form_id"
    (by decide) (by decide) (by decide) (by decide) (by decide)

/-- C5: when the caller's field map contains a `process_instance_id`,
the supplied id is stored verbatim on the created application and no
external workflow-start call is made. -/
theorem create_application_supplied_pid (findMapper : PyVal → Option Mapper)
    (bpm : StartPayload → BPMOutcome) (newId : Int) (now : String)
    (data : PyDict) (store : List AppEntity) (fid pv : PyVal) (m : Mapper)
    (h1 : dictGet? data "form_id" = some fid)
    (h2 : findMapper fid = some m)
    (h3 : dictGet? data "process_instance_id" = some pv) :
    ∃ app,
      (create_application findMapper bpm newId now data store).result = .ok app
      ∧ app.process_instance_id = some pv
      ∧ (create_application findMapper bpm newId now data store).bpmCalled
          = false
      ∧ (create_application findMapper bpm newId now data store).store
          = store ++ [app] := by
  rw [create_application_eq findMapper bpm newId now data store fid m h1 h2]
  have hd3 : dictGet? (mutatedData data m) "process_instance_id" = some pv := by
    rw [mutatedData_other data m _ (by decide) (by decide) (by decide)]
    exact h3
  rw [create_core_supplied bpm newId now (mutatedData data m) store pv hd3]
  exact ⟨_, rfl, rfl, rfl, rfl⟩

/-- Witness for C5 at a concrete pre-started workflow request. -/
theorem create_application_supplied_pid_witness :
    ∃ app,
      (create_application (fun _ => some ⟨4, "FormA", "K1"⟩)
        (fun _ => .raises .typeError) 10 "2021"
        [("form_id", .str "F1"), ("process_instance_id", .str "p-9")]
        []).result = .ok app
      ∧ app.process_instance_id = some (.str "p-9")
      ∧ (create_application (fun _ => some ⟨4, "FormA", "K1"⟩)
          (fun _ => .raises .typeError) 10 "2021"
          [("form_id", .str "F1"), ("process_instance_id", .str "p-9")]
          []).bpmCalled = false
      ∧ (create_application (fun _ => some ⟨4, "FormA", "K1"⟩)
          (fun _ => .raises .typeError) 10 "2021"
          [("form_id", .str "F1"), ("process_instance_id", .str "p-9")]
          []).store = [] ++ [app] :=
  create_application_supplied_pid (fun _ => some ⟨4, "FormA", "K1"⟩)
    (fun _ => .raises .typeError) 10 "2021"
    [("form_id", .str "F1"), ("process_instance_id", .str "p-9")] []
    (.str "F1") (.str "p-9") ⟨4, "FormA", "K1"⟩
    (by decide) (by decide) (by decide)

/-- C4: for every record-creating call of `create_application` — with
any field map, any caller-supplied `application_status`, with or without
a caller-supplied `process_instance_id`, and any workflow outcome — the
persisted application's status equals the system "new" status constant;
and when no `process_instance_id` was supplied and the engine returns a
well-formed response carrying an `id`, the persisted record's
process-instance field equals that id.  The status conjunct quantifies
its own call (`data2`, `bpm2`) hypothesised only to resolve a mapping;
the no-supplied-pid hypotheses scope the engine-id conjunct alone. -/
theorem create_application_status_and_pid (findMapper : PyVal → Option Mapper)
    (bpm bpm2 : StartPayload → BPMOutcome) (newId : Int) (now : String)
    (data data2 : PyDict) (store store2 : List AppEntity)
    (fid fid2 : PyVal) (m m2 : Mapper) (resp : PyDict) (pid : PyVal)
    (g1 : dictGet? data2 "form_id" = some fid2)
    (g2 : findMapper fid2 = some m2)
    (h1 : dictGet? data "form_id" = some fid)
    (h2 : findMapper fid = some m)
    (h3 : dictGet? data "process_instance_id" = Option.none)
    (h4 : ∀ p, bpm p = .returns (some resp))
    (h5 : dictGet? resp "id" = some pid) :
    (∃ app,
      (create_application findMapper bpm2 newId now data2 store2).store
          = store2 ++ [app]
      ∧ app.application_status = .str NEW_APPLICATION_STATUS)
    ∧ (∃ app,
      (create_application findMapper bpm newId now data store).result
          = .ok app
      ∧ app.process_instance_id = some pid
      ∧ (create_application findMapper bpm newId now data store).store
          = store ++ [app]
      ∧ app.application_status = .str NEW_APPLICATION_STATUS) := by
  have hstat : (create_from_dict (mutatedData data m) newId now).application_status
      = .str NEW_APPLICATION_STATUS := by
    simp [create_from_dict, dictGetD, mutatedData_status data m]
  have hstat2 : (create_from_dict (mutatedData data2 m2) newId now).application_status
      = .str NEW_APPLICATION_STATUS := by
    simp [create_from_dict, dictGetD, mutatedData_status data2 m2]
  have hd3 : dictGet? (mutatedData data m) "process_instance_id"
      = Option.none := by
    rw [mutatedData_other data m _ (by decide) (by decide) (by decide)]
    exact h3
  constructor
  · rw [create_application_eq findMapper bpm2 newId now data2 store2 fid2 m2
      g1 g2]
    obtain ⟨app, ha, hs⟩ := create_core_append bpm2 newId now
      (mutatedData data2 m2) store2
    exact ⟨app, ha, by rw [hs, hstat2]⟩
  · rw [create_application_eq findMapper bpm newId now data store fid m h1 h2]
    rw [create_core_nopid_ok bpm newId now (mutatedData data m) store resp pid
      hd3 h4 h5]
    exact ⟨_, rfl, rfl, rfl, hstat⟩

/-- Witness for C4: the status conjunct is exercised on the
supplied-process_instance_id path with a caller-supplied status to
override, the engine-id conjunct on a concrete well-formed engine
response. -/
theorem create_application_status_and_pid_witness :
    (∃ app,
      (create_application (fun _ => some ⟨4, "FormA", "K1"⟩)
        (fun _ => .raises .typeError) 10 "2021"
        [("form_id", .str "F1"), ("process_instance_id", .str "p-9"),
         ("application_status", .str "hacked")]
        []).store = [] ++ [app]
      ∧ app.application_status = .str NEW_APPLICATION_STATUS)
    ∧ (∃ app,
      (create_application (fun _ => some ⟨4, "FormA", "K1"⟩)
        (fun _ => .returns (some [("id", .str "proc-123")])) 10 "2021"
        [("form_id", .str "F1"), ("application_status", .str "hacked")]
        []).result = .ok app
      ∧ app.process_instance_id = some (.str "proc-123")
      ∧ (create_application (fun _ => some ⟨4, "FormA", "K1"⟩)
          (fun _ => .returns (some [("id", .str "proc-123")])) 10 "2021"
          [("form_id", .str "F1"), ("application_status", .str "hacked")]
          []).store = [] ++ [app]
      ∧ app.application_status = .str NEW_APPLICATION_STATUS) :=
  create_application_status_and_pid (fun _ => some ⟨4, "FormA", "K1"⟩)
    (fun _ => .returns (some [("id", .str "proc-123")]))
    (fun _ => .raises .typeError) 10 "2021"
    [("form_id", .str "F1"), ("application_status", .str "hacked")]
    [("form_id", .str "F1"), ("process_instance_id", .str "p-9"),
     ("application_status", .str "hacked")]
    [] []
    (.str "F1") (.str "F1") ⟨4, "FormA", "K1"⟩ ⟨4, "FormA", "K1"⟩
    [("id", .str "proc-123")] (.str "proc-123")
    (by decide) (by decide) (by decide) (by decide) (by decide)
    (fun _ => rfl) (by decide)

/-- C1: when no `process_instance_id` was supplied and the workflow
start raises, a `TypeError` yields the bad-gateway-classified result,
any other exception yields the bad-request-classified result carrying
the underlying error, and in both cases the freshly created application
record remains persisted with no process-instance id — it is never
deleted or rolled back. -/
theorem create_application_failure_no_rollback
    (findMapper : PyVal → Option Mapper) (bpm : StartPayload → BPMOutcome)
    (newId : Int) (now : String) (data : PyDict) (store : List AppEntity)
    (fid : PyVal) (m : Mapper) (e : PyExc)
    (h1 : dictGet? data "form_id" = some fid)
    (h2 : findMapper fid = some m)
    (h3 : dictGet? data "process_instance_id" = Option.none)
    (h4 : ∀ p, bpm p = .raises e) :
    ((create_application findMapper bpm newId now data store).result.status
        = some HTTPStatus.BAD_GATEWAY
     ∨ (create_application findMapper bpm newId now data store).result.status
        = some HTTPStatus.BAD_REQUEST)
    ∧ (e = .typeError →
        (create_application findMapper bpm newId now data store).result
          = .badGateway "Camunda workflow not able to create a task" .typeError)
    ∧ (e ≠ .typeError →
        (create_application findMapper bpm newId now data store).result
          = .badRequest "Camunda Process Mapper Key not provided" e)
    ∧ ∃ app,
        (create_application findMapper bpm newId now data store).store
          = store ++ [app]
        ∧ app.process_instance_id = Option.none := by
  have hd3 : dictGet? (mutatedData data m) "process_instance_id"
      = Option.none := by
    rw [mutatedData_other data m _ (by decide) (by decide) (by decide)]
    exact h3
  rw [create_application_eq findMapper bpm newId now data store fid m h1 h2]
  rw [create_core_raises bpm newId now (mutatedData data m) store e hd3 h4]
  refine ⟨?_, ?_, ?_, _, rfl, rfl⟩
  · cases e with
    | typeError => exact Or.inl rfl
    | keyError k => exact Or.inr rfl
    | valueError => exact Or.inr rfl
    | businessNotFound => exact Or.inr rfl
    | otherError s => exact Or.inr rfl
  · intro he
    subst he
    rfl
  · intro hne
    cases e with
    | typeError => exact absurd rfl hne
    | keyError k => rfl
    | valueError => rfl
    | businessNotFound => rfl
    | otherError s => rfl

/-- Witness for C1 at a concrete non-TypeError workflow failure. -/
theorem create_application_failure_no_rollback_witness :
    ((create_application (fun _ => some ⟨4, "FormA", "K1"⟩)
        (fun _ => .raises (.otherError "boom")) 10 "2021"
        [("form_id", .str "F1")] []).result.status
        = some HTTPStatus.BAD_GATEWAY
     ∨ (create_application (fun _ => some ⟨4, "FormA", "K1"⟩)
        (fun _ => .raises (.otherError "boom")) 10 "2021"
        [("form_id", .str "F1")] []).result.status
        = some HTTPStatus.BAD_REQUEST)
    ∧ ((.otherError "boom" : PyExc) = .typeError →
        (create_application (fun _ => some ⟨4, "FormA", "K1"⟩)
          (fun _ => .raises (.otherError "boom")) 10 "2021"
          [("form_id", .str "F1")] []).result
          = .badGateway "Camunda workflow not able to create a task" .typeError)
    ∧ ((.otherError "boom" : PyExc) ≠ .typeError →
        (create_application (fun _ => some ⟨4, "FormA", "K1"⟩)
          (fun _ => .raises (.otherError "boom")) 10 "2021"
          [("form_id", .str "F1")] []).result
          = .badRequest "Camunda Process Mapper Key not provided"
              (.otherError "boom"))
    ∧ ∃ app,
        (create_application (fun _ => some ⟨4, "FormA", "K1"⟩)
          (fun _ => .raises (.otherError "boom")) 10 "2021"
          [("form_id", .str "F1")] []).store = [] ++ [app]
        ∧ app.process_instance_id = Option.none :=
  create_application_failure_no_rollback (fun _ => some ⟨4, "FormA", "K1"⟩)
    (fun _ => .raises (.otherError "boom")) 10 "2021"
    [("form_id", .str "F1")] [] (.str "F1") ⟨4, "FormA", "K1"⟩
    (.otherError "boom")
    (by decide) (by decide) (by decide) (fun _ => rfl)

end FormsFlow
